import Mathlib

/-!
Verification of a minimal server-rendered blogging application (Express +
Postgres + passport-local + bcrypt, `src/index.js`).

The embedding models the two-table relational store (`users`, `posts`) as
explicit Lean state, SQL queries as pure functions over that state, and each
route handler as a function from the database state, the (exogenous) failure
signals and the request to a `Response` and the resulting database state.
Exogenous store failures (a `db.query` or `bcrypt.hash` call throwing) are
passed as explicit boolean inputs, since they are decided by the environment,
not by the program.
-/

namespace Blog

/-- Modelled from the spec: the credential hasher (the external `bcrypt`
library, invoked as `bcrypt.hash(password, 10)` and
`bcrypt.compare(password, user.password)` in `src/index.js`) is not part of
this repository's source.  The spec describes it as a salted one-way
transform: `hash` embeds a salt and work factor in the output string, and
`verify` is true iff the plaintext, re-hashed with the embedded salt,
matches.  The model idealizes the digest as a collision-free function of the
salt and the plaintext (the spec's "with overwhelming probability" becomes
certainty in the model). -/
structure HashString where
  salt : Nat
  digest : String
deriving DecidableEq, Repr

/-- Modelled from the spec: `bcrypt.hash` with an explicitly passed salt
(bcrypt draws the salt at random; here it is an input). -/
def bcryptHash (salt : Nat) (plaintext : String) : HashString :=
  ⟨salt, plaintext⟩

/-- Modelled from the spec: `bcrypt.compare` re-hashes the plaintext with the
salt embedded in the stored hash and compares. -/
def bcryptCompare (plaintext : String) (stored : HashString) : Bool :=
  bcryptHash stored.salt plaintext == stored

/-- A row of the `users` table: `users(id, username unique, password)`;
`password` holds the bcrypt hash. -/
structure User where
  id : Nat
  username : String
  password : HashString
deriving DecidableEq, Repr

/-- A row of the `posts` table: `posts(id, title, content, author)`;
`author` is the denormalized username of the author at write time. -/
structure Post where
  id : Nat
  title : String
  content : String
  author : String
deriving DecidableEq, Repr

/-- The database state: the two tables in insertion order, plus the next
serial ids the engine will assign. -/
structure DB where
  users : List User
  posts : List Post
  nextUserId : Nat
  nextPostId : Nat
deriving DecidableEq, Repr

/-- `SELECT * FROM users WHERE username = $1` (first matching row). -/
def findByUsername (db : DB) (u : String) : Option User :=
  db.users.find? (fun r => r.username == u)

/-- `SELECT * FROM users WHERE id = $1` (first matching row). -/
def findById (db : DB) (i : Nat) : Option User :=
  db.users.find? (fun r => r.id == i)

/-- `SELECT * FROM posts WHERE id = $1` (first matching row). -/
def findPostById (db : DB) (i : Nat) : Option Post :=
  db.posts.find? (fun r => r.id == i)

/-- Whether an `INSERT INTO users` would violate the unique constraint on
`username` (Postgres error code 23505). -/
def usernameExists (db : DB) (u : String) : Bool :=
  (findByUsername db u).isSome

/-- `INSERT INTO users (username, password) VALUES ($1, $2) RETURNING id,
username`: appends a fresh row with the next serial id and returns it. -/
def insertUser (db : DB) (u : String) (h : HashString) : User × DB :=
  let user : User := ⟨db.nextUserId, u, h⟩
  (user, { db with users := db.users ++ [user], nextUserId := db.nextUserId + 1 })

/-- `INSERT INTO posts (title, content, author) VALUES ($1, $2, $3)`. -/
def insertPost (db : DB) (t c a : String) : DB :=
  { db with posts := db.posts ++ [⟨db.nextPostId, t, c, a⟩],
            nextPostId := db.nextPostId + 1 }

/-- Insert a post into a list kept in descending-id order. -/
def insertDesc (p : Post) : List Post → List Post
  | [] => [p]
  | q :: qs => if q.id ≤ p.id then p :: q :: qs else q :: insertDesc p qs

/-- Sort a list of posts by descending id (the semantics of
`ORDER BY id DESC` over rows with distinct ids). -/
def sortByIdDesc : List Post → List Post
  | [] => []
  | p :: ps => insertDesc p (sortByIdDesc ps)

/-- `SELECT * FROM posts ORDER BY id DESC`. -/
def listRecent (db : DB) : List Post :=
  sortByIdDesc db.posts

/-- The data an EJS view is rendered with. -/
inductive ViewData where
  | empty
  | errorMsg (msg : String)
  | homePosts (posts : List Post)
  | postView (p : Post)
  | writeView (error : Option String) (success : Option String)
deriving DecidableEq, Repr

/-- An HTTP response produced by a handler: `res.status(s).render(view, data)`
(`render` alone is status 200), `res.redirect(location)` (status 302), or
`res.status(s).send(body)`. -/
inductive Response where
  | render (status : Nat) (view : String) (data : ViewData)
  | redirect (location : String)
  | send (status : Nat) (body : String)
deriving DecidableEq, Repr

/-- The HTTP status code of a response (`res.redirect` defaults to 302). -/
def Response.status : Response → Nat
  | .render s _ _ => s
  | .redirect _ => 302
  | .send s _ => s

/-- JavaScript falsiness of a request-body field: `!x` is true when the field
is absent (`undefined`) or the empty string. -/
def jsFalsy : Option String → Bool
  | none => true
  | some s => s == ""

/-- The outcome the passport `LocalStrategy` verify callback reports through
`done`: `done(error)`, `done(null, false, message)`, or `done(null, user)`. -/
inductive AuthOutcome where
  | error
  | rejected (message : String)
  | authenticated (u : User)
deriving DecidableEq, Repr

/-- The `LocalStrategy` verify callback (`src/index.js` lines 48-66): look the
username up; if absent, reject with a fixed message; otherwise compare the
password with the stored hash, rejecting with the same fixed message on
mismatch; any thrown store error becomes `done(error)`. -/
def localStrategy (db : DB) (storeFail : Bool) (username password : String) :
    AuthOutcome :=
  if storeFail then .error
  else
    match findByUsername db username with
    | none => .rejected "Invalid username or password"
    | some user =>
        if bcryptCompare password user.password then .authenticated user
        else .rejected "Invalid username or password"

/-- The outcome `passport.deserializeUser` reports: `done(error)`,
`done(null, false)` (treated as an unauthenticated request), or
`done(null, user)`. -/
inductive DeserializeOutcome where
  | error
  | unauthenticated
  | user (u : User)
deriving DecidableEq, Repr

/-- `passport.deserializeUser` (`src/index.js` lines 72-80): look the session's
user id up; an empty result is reported as `done(null, false)`, a thrown store
error as `done(error)`. -/
def deserializeUser (db : DB) (storeFail : Bool) (id : Nat) :
    DeserializeOutcome :=
  if storeFail then .error
  else
    match findById db id with
    | none => .unauthenticated
    | some u => .user u

/-- `GET /` (`src/index.js` lines 91-98): query the post list newest-first and
render it; if the query throws, render the page with an empty list. -/
def home (db : DB) (storeFail : Bool) : Response :=
  if storeFail then .render 200 "home" (.homePosts [])
  else .render 200 "home" (.homePosts (listRecent db))

/-- `GET /posts/:id` (`src/index.js` lines 100-110): 404 when no row matches,
500 when the query throws, otherwise render the post. -/
def getPost (db : DB) (storeFail : Bool) (id : Nat) : Response :=
  if storeFail then .send 500 "Server error"
  else
    match findPostById db id with
    | none => .send 404 "Post not found"
    | some p => .render 200 "post" (.postView p)

/-- `POST /register` (`src/index.js` lines 124-156): 400 when either field is
falsy; hash the password and insert the user; a duplicate-username insert
(error code 23505) redirects to sign-in with a message; any other thrown
error renders a 500; on success `req.login` is called, whose failure
redirects to `/sign-in` and whose success redirects to `/welcome.html`.
`storeFail` models `bcrypt.hash` or `db.query` throwing a non-23505 error;
`loginFail` models the `req.login` callback receiving an error. -/
def register (db : DB) (storeFail loginFail : Bool)
    (username password : Option String) (salt : Nat) : Response × DB :=
  if jsFalsy username || jsFalsy password then
    (.render 400 "register" (.errorMsg "Username and password are required."), db)
  else if storeFail then
    (.render 500 "register" (.errorMsg "Internal server error."), db)
  else if usernameExists db (username.getD "") then
    (.redirect "/sign-in?error=Username already exists. Please sign in", db)
  else
    let created := insertUser db (username.getD "") (bcryptHash salt (password.getD ""))
    if loginFail then (.redirect "/sign-in", created.2)
    else (.redirect "/welcome.html", created.2)

/-- `POST /write` behind `ensureAuthenticated` (`src/index.js` lines 83-86 and
193-217): an unauthenticated request is redirected to `/sign-in` before the
handler body runs; then 400 when either field is falsy, 500 when the insert
throws, otherwise insert the post under the current identity and render a
success message. -/
def postWrite (db : DB) (auth : Option User) (storeFail : Bool)
    (title content : Option String) : Response × DB :=
  match auth with
  | none => (.redirect "/sign-in", db)
  | some user =>
      if jsFalsy title || jsFalsy content then
        (.render 400 "write" (.writeView (some "Title and content are required.") none), db)
      else if storeFail then
        (.render 500 "write" (.writeView (some "Internal server error.") none), db)
      else
        (.render 200 "write" (.writeView none (some "Post created successfully!")),
         insertPost db (title.getD "") (content.getD "") user.username)

/-- Scenario fixture: a registered author. -/
def scenarioUser : User := ⟨1, "alice", bcryptHash 0 "pw"⟩

/-- Scenario fixture: a database with one user and no posts. -/
def scenarioDB0 : DB := ⟨[scenarioUser], [], 2, 1⟩

/-- Scenario fixture: after writing post A. -/
def scenarioDB1 : DB :=
  (postWrite scenarioDB0 (some scenarioUser) false (some "A") (some "post a")).2

/-- Scenario fixture: after writing posts A then B. -/
def scenarioDB2 : DB :=
  (postWrite scenarioDB1 (some scenarioUser) false (some "B") (some "post b")).2

/-- Scenario fixture: after writing posts A, B then C. -/
def scenarioDB3 : DB :=
  (postWrite scenarioDB2 (some scenarioUser) false (some "C") (some "post c")).2

theorem mem_insertDesc {x p : Post} {l : List Post} :
    x ∈ insertDesc p l ↔ x = p ∨ x ∈ l := by
  induction l with
  | nil => simp [insertDesc]
  | cons q qs ih =>
      by_cases h : q.id ≤ p.id
      · simp only [insertDesc, if_pos h, List.mem_cons]
      · simp only [insertDesc, if_neg h, List.mem_cons, ih]
        tauto

theorem insertDesc_pairwise {p : Post} {l : List Post}
    (h : l.Pairwise fun a b => b.id ≤ a.id) :
    (insertDesc p l).Pairwise fun a b => b.id ≤ a.id := by
  induction l with
  | nil => simp [insertDesc]
  | cons q qs ih =>
      rcases List.pairwise_cons.mp h with ⟨hq, hqs⟩
      by_cases hle : q.id ≤ p.id
      · rw [insertDesc, if_pos hle]
        refine List.pairwise_cons.mpr ⟨?_, h⟩
        intro x hx
        rcases List.mem_cons.mp hx with rfl | hx
        · exact hle
        · exact Nat.le_trans (hq x hx) hle
      · rw [insertDesc, if_neg hle]
        refine List.pairwise_cons.mpr ⟨?_, ih hqs⟩
        intro x hx
        rcases mem_insertDesc.mp hx with rfl | hx
        · exact Nat.le_of_lt (Nat.lt_of_not_le hle)
        · exact hq x hx

theorem sortByIdDesc_pairwise (l : List Post) :
    (sortByIdDesc l).Pairwise fun a b => b.id ≤ a.id := by
  induction l with
  | nil => simp [sortByIdDesc]
  | cons p ps ih => exact insertDesc_pairwise ih

theorem find?_append_of_none {α : Type} {p : α → Bool} {l₁ l₂ : List α}
    (h : l₁.find? p = none) : (l₁ ++ l₂).find? p = l₂.find? p := by
  induction l₁ with
  | nil => rfl
  | cons a as ih =>
      have hpa : ¬ p a := by
        intro hpa
        rw [List.find?_cons_of_pos as hpa] at h
        exact Option.some_ne_none a h
      rw [List.cons_append, List.find?_cons_of_neg _ hpa]
      rw [List.find?_cons_of_neg as hpa] at h
      exact ih h

theorem findByUsername_insert_self {db : DB} {u : String} {h : HashString}
    (habs : findByUsername db u = none) :
    findByUsername (insertUser db u h).2 u = some ⟨db.nextUserId, u, h⟩ := by
  unfold findByUsername insertUser
  rw [find?_append_of_none habs]
  simp [List.find?]

/-- C1: authenticating with a username that has no user record and
authenticating with an existing username but a non-matching password produce
the same `Rejected` outcome with the identical message
"Invalid username or password". -/
theorem auth_rejection_indistinguishable (db : DB) (u1 p1 u2 p2 : String)
    (u : User) (h1 : findByUsername db u1 = none)
    (h2 : findByUsername db u2 = some u)
    (h3 : bcryptCompare p2 u.password = false) :
    localStrategy db false u1 p1 = .rejected "Invalid username or password" ∧
    localStrategy db false u2 p2 = .rejected "Invalid username or password" ∧
    localStrategy db false u1 p1 = localStrategy db false u2 p2 := by
  unfold localStrategy
  rw [h1, h2]
  simp [h3]

/-- C1 witness: a concrete database where "bob" exists with password "secret";
authenticating as the absent "alice" and as "bob" with the wrong password give
the same rejection. -/
theorem auth_rejection_indistinguishable_witness :
    localStrategy ⟨[⟨1, "bob", bcryptHash 0 "secret"⟩], [], 2, 1⟩ false "alice" "x"
      = .rejected "Invalid username or password" ∧
    localStrategy ⟨[⟨1, "bob", bcryptHash 0 "secret"⟩], [], 2, 1⟩ false "bob" "x"
      = .rejected "Invalid username or password" ∧
    localStrategy ⟨[⟨1, "bob", bcryptHash 0 "secret"⟩], [], 2, 1⟩ false "alice" "x"
      = localStrategy ⟨[⟨1, "bob", bcryptHash 0 "secret"⟩], [], 2, 1⟩ false "bob" "x" :=
  auth_rejection_indistinguishable _ "alice" "x" "bob" "x"
    ⟨1, "bob", bcryptHash 0 "secret"⟩ (by decide) (by decide) (by decide)

/-- C2: registering the same username twice from a state where it is absent:
the first call succeeds (redirect to `/welcome.html`, row created with the
hashed password), the second yields the duplicate-key conflict surfaced as a
redirect to sign-in with an "already exists" message, and leaves the database
— in particular the first user's stored hash — unchanged. -/
theorem register_twice_conflict (db : DB) (u p1 p2 : String) (s1 s2 : Nat)
    (hu : u ≠ "") (hp1 : p1 ≠ "") (hp2 : p2 ≠ "")
    (habs : findByUsername db u = none) :
    (register db false false (some u) (some p1) s1).1 = .redirect "/welcome.html" ∧
    findByUsername (register db false false (some u) (some p1) s1).2 u
      = some ⟨db.nextUserId, u, bcryptHash s1 p1⟩ ∧
    (register (register db false false (some u) (some p1) s1).2 false false
        (some u) (some p2) s2).1
      = .redirect "/sign-in?error=Username already exists. Please sign in" ∧
    (register (register db false false (some u) (some p1) s1).2 false false
        (some u) (some p2) s2).2
      = (register db false false (some u) (some p1) s1).2 := by
  have hfu : jsFalsy (some u) = false := by simp [jsFalsy, hu]
  have hfp1 : jsFalsy (some p1) = false := by simp [jsFalsy, hp1]
  have hfp2 : jsFalsy (some p2) = false := by simp [jsFalsy, hp2]
  have h1 : register db false false (some u) (some p1) s1
      = (.redirect "/welcome.html", (insertUser db u (bcryptHash s1 p1)).2) := by
    unfold register
    rw [hfu, hfp1]
    simp [usernameExists, habs]
  have hfind : findByUsername (insertUser db u (bcryptHash s1 p1)).2 u
      = some ⟨db.nextUserId, u, bcryptHash s1 p1⟩ :=
    findByUsername_insert_self habs
  have h2 : register (insertUser db u (bcryptHash s1 p1)).2 false false
      (some u) (some p2) s2
      = (.redirect "/sign-in?error=Username already exists. Please sign in",
         (insertUser db u (bcryptHash s1 p1)).2) := by
    unfold register
    rw [hfu, hfp2]
    simp [usernameExists, hfind]
  have hsnd : (register db false false (some u) (some p1) s1).2
      = (insertUser db u (bcryptHash s1 p1)).2 := by rw [h1]
  refine ⟨by rw [h1], ?_, ?_, ?_⟩
  · rw [hsnd]; exact hfind
  · rw [hsnd, h2]
  · rw [hsnd, h2]

/-- C2 witness: from an empty database, registering "alice" twice concretely. -/
theorem register_twice_conflict_witness :
    (register ⟨[], [], 1, 1⟩ false false (some "alice") (some "pw") 0).1
      = .redirect "/welcome.html" ∧
    findByUsername (register ⟨[], [], 1, 1⟩ false false (some "alice") (some "pw") 0).2
        "alice" = some ⟨1, "alice", bcryptHash 0 "pw"⟩ ∧
    (register (register ⟨[], [], 1, 1⟩ false false (some "alice") (some "pw") 0).2
        false false (some "alice") (some "pw2") 1).1
      = .redirect "/sign-in?error=Username already exists. Please sign in" ∧
    (register (register ⟨[], [], 1, 1⟩ false false (some "alice") (some "pw") 0).2
        false false (some "alice") (some "pw2") 1).2
      = (register ⟨[], [], 1, 1⟩ false false (some "alice") (some "pw") 0).2 :=
  register_twice_conflict ⟨[], [], 1, 1⟩ "alice" "pw" "pw2" 0 1
    (by decide) (by decide) (by decide) rfl

/-- C3 counterexample: with both fields present and the user row successfully
created, a `req.login` failure — a failure that is not a duplicate-username
conflict — produces a redirect to `/sign-in` (status 302), not an HTTP 500
response, refuting the claim that the only non-500 failure responses are the
missing-field 400 and the duplicate-username redirect. -/
theorem register_autologin_failure_not_500 :
    (register ⟨[], [], 1, 1⟩ false true (some "alice") (some "pw") 0).1
      = .redirect "/sign-in" ∧
    ((register ⟨[], [], 1, 1⟩ false true (some "alice") (some "pw") 0).1).status = 302 ∧
    ((register ⟨[], [], 1, 1⟩ false true (some "alice") (some "pw") 0).1).status ≠ 500 := by
  decide

/-- C3 (amended): for every POST /register with both fields present, a store
or hashing failure other than the duplicate-username conflict yields HTTP 500;
the duplicate-username conflict yields its redirect; and an auto-login
(`req.login`) failure after successful creation yields a redirect to
`/sign-in`, not a 500; otherwise the success redirect. -/
theorem register_failure_modes (db : DB) (sf lf : Bool) (u p : String) (s : Nat)
    (hu : u ≠ "") (hp : p ≠ "") :
    (sf = true →
      (register db sf lf (some u) (some p) s).1
        = .render 500 "register" (.errorMsg "Internal server error.")) ∧
    (sf = false → usernameExists db u = true →
      (register db sf lf (some u) (some p) s).1
        = .redirect "/sign-in?error=Username already exists. Please sign in") ∧
    (sf = false → usernameExists db u = false → lf = true →
      (register db sf lf (some u) (some p) s).1 = .redirect "/sign-in") ∧
    (sf = false → usernameExists db u = false → lf = false →
      (register db sf lf (some u) (some p) s).1 = .redirect "/welcome.html") := by
  have hfu : jsFalsy (some u) = false := by simp [jsFalsy, hu]
  have hfp : jsFalsy (some p) = false := by simp [jsFalsy, hp]
  refine ⟨?_, ?_, ?_, ?_⟩
  · intro hsf; subst hsf; unfold register; rw [hfu, hfp]; simp
  · intro hsf hex; subst hsf; unfold register; rw [hfu, hfp]; simp [hex]
  · intro hsf hex hlf; subst hsf; subst hlf; unfold register
    rw [hfu, hfp]; simp [hex]
  · intro hsf hex hlf; subst hsf; subst hlf; unfold register
    rw [hfu, hfp]; simp [hex]

/-- C3 witness: a concrete store failure during registration renders the 500
page. -/
theorem register_failure_modes_witness :
    (register ⟨[], [], 1, 1⟩ true false (some "alice") (some "pw") 0).1
      = .render 500 "register" (.errorMsg "Internal server error.") :=
  (register_failure_modes ⟨[], [], 1, 1⟩ true false "alice" "pw" 0
    (by decide) (by decide)).1 rfl

/-- C4: GET / renders the posts sorted by descending id (most recent first);
after creating posts A, B, C in that order the listing is [C, B, A]. -/
theorem home_newest_first (db : DB) :
    home db false = .render 200 "home" (.homePosts (listRecent db)) ∧
    (listRecent db).Pairwise (fun a b => b.id ≤ a.id) ∧
    home scenarioDB3 false = .render 200 "home" (.homePosts
      [⟨3, "C", "post c", "alice"⟩, ⟨2, "B", "post b", "alice"⟩,
       ⟨1, "A", "post a", "alice"⟩]) := by
  refine ⟨rfl, sortByIdDesc_pairwise db.posts, ?_⟩
  decide

/-- C5: if the store query for the post list fails, GET / still renders the
home page (status 200) with an empty list of posts. -/
theorem home_store_error_renders_empty (db : DB) :
    home db true = .render 200 "home" (.homePosts []) ∧
    (home db true).status = 200 :=
  ⟨rfl, rfl⟩

/-- C6: POST /write without an authenticated session redirects to /sign-in
and leaves the database — in particular the posts table — unchanged. -/
theorem write_unauthenticated_redirect (db : DB) (sf : Bool)
    (title content : Option String) :
    postWrite db none sf title content = (.redirect "/sign-in", db) ∧
    (postWrite db none sf title content).2.posts = db.posts :=
  ⟨rfl, rfl⟩

/-- C7: deserializing a session whose user id has no user record yields the
unauthenticated result (`done(null, false)`), not an error; the error outcome
occurs exactly when the store fails. -/
theorem deserialize_outcomes (db : DB) (sf : Bool) (id : Nat) :
    (sf = false → findById db id = none →
      deserializeUser db sf id = .unauthenticated) ∧
    (deserializeUser db sf id = .error ↔ sf = true) := by
  constructor
  · intro hsf hmiss; subst hsf; unfold deserializeUser; rw [hmiss]; simp
  · unfold deserializeUser
    cases sf with
    | true => simp
    | false =>
        simp only [Bool.false_eq_true, if_false]
        cases hfind : findById db id <;> simp

/-- C7 witness: deserializing id 7 against an empty user table yields the
unauthenticated result. -/
theorem deserialize_outcomes_witness :
    deserializeUser ⟨[], [], 1, 1⟩ false 7 = .unauthenticated :=
  (deserialize_outcomes ⟨[], [], 1, 1⟩ false 7).1 rfl rfl

/-- C8: GET /posts/:id sends 404 when no post with that id exists, 500 when
the store lookup fails, and otherwise renders the post. -/
theorem view_post_outcomes (db : DB) (sf : Bool) (id : Nat) :
    (sf = true → getPost db sf id = .send 500 "Server error") ∧
    (sf = false → findPostById db id = none →
      getPost db sf id = .send 404 "Post not found") ∧
    (∀ p : Post, sf = false → findPostById db id = some p →
      getPost db sf id = .render 200 "post" (.postView p)) := by
  refine ⟨?_, ?_, ?_⟩
  · intro h; subst h; simp [getPost]
  · intro h hm; subst h; simp [getPost, hm]
  · intro p h hm; subst h; simp [getPost, hm]

/-- C8 witness: looking up post id 5 against an empty posts table sends 404. -/
theorem view_post_outcomes_witness :
    getPost ⟨[], [], 1, 1⟩ false 5 = .send 404 "Post not found" :=
  (view_post_outcomes ⟨[], [], 1, 1⟩ false 5).2.1 rfl rfl

/-- C9: the credential hasher round-trip law: verifying a password against its
own hash succeeds, and verifying a different password against that hash fails
(certainly, in the idealized collision-free model). -/
theorem bcrypt_verify_roundtrip (p p1 p2 : String) (s : Nat) (h : p1 ≠ p2) :
    bcryptCompare p (bcryptHash s p) = true ∧
    bcryptCompare p1 (bcryptHash s p2) = false := by
  constructor
  · simp [bcryptCompare, bcryptHash]
  · simp [bcryptCompare, bcryptHash, HashString.mk.injEq, h]

/-- C9 witness: concrete round trip for "a" and mismatch "a" vs "b". -/
theorem bcrypt_verify_roundtrip_witness :
    bcryptCompare "a" (bcryptHash 0 "a") = true ∧
    bcryptCompare "a" (bcryptHash 0 "b") = false :=
  bcrypt_verify_roundtrip "a" "a" "b" 0 (by decide)

/-- C10: the required-field checks on POST /register and POST /write use
JavaScript falsiness, so an empty-string field behaves exactly like an absent
field: the response is the 400 render and the database state is unchanged (no
row inserted, no hash stored). -/
theorem empty_field_treated_as_missing (db : DB) (sf lf : Bool) (s : Nat)
    (v : Option String) (u : User) :
    register db sf lf (some "") v s = register db sf lf none v s ∧
    register db sf lf v (some "") s = register db sf lf v none s ∧
    (register db sf lf (some "") v s).1
      = .render 400 "register" (.errorMsg "Username and password are required.") ∧
    (register db sf lf (some "") v s).2 = db ∧
    postWrite db (some u) sf (some "") v = postWrite db (some u) sf none v ∧
    postWrite db (some u) sf v (some "") = postWrite db (some u) sf v none ∧
    (postWrite db (some u) sf (some "") v).1
      = .render 400 "write" (.writeView (some "Title and content are required.") none) ∧
    (postWrite db (some u) sf (some "") v).2 = db := by
  refine ⟨?_, ?_, ?_, ?_, ?_, ?_, ?_, ?_⟩ <;>
    simp [register, postWrite, jsFalsy]

end Blog
